import Mathlib

/-!
Shallow embedding of the `@synet/retry` retry unit (`src/retry.unit.ts`):
the attempt loop `retry`, the policy merge `mergeOptions`, the classifier
`isRetryableError`, the delay calculator `calculateDelay`, and the
statistics snapshot `getStats`.  Machine numbers are modelled as `ℚ`
(durations, random draws) and `ℕ` (counters, attempt numbers); the
stateful counters are threaded explicitly; thrown errors become
constructors of `RetryOutcome`.

A second variant of the class (file `src/retry.unit.ts` with the
`configuration`-keyed snapshot and division-guarded derived fields) is
embedded in namespace `RetryUnitSrc`.
-/

namespace RetryUnit

/-- A JavaScript `Error` as the retry unit observes it: a message and an
optional machine-readable `code` (as on `NodeJS.ErrnoException`). -/
structure TSError where
  message : String
  code : Option String
deriving DecidableEq, Repr

/-- `RetryProps`: validated instance configuration (the policy). -/
structure RetryProps where
  maxAttempts : ℕ
  baseDelay : ℚ
  maxDelay : ℚ
  jitter : Bool
  backoffMultiplier : ℚ
  retryableErrors : List String
deriving DecidableEq, Repr

/-- `Partial<RetryConfig>`: the optional per-call overrides, every field
optional (JS `undefined` is `none`). -/
structure RetryConfigOpt where
  maxAttempts : Option ℕ := none
  baseDelay : Option ℚ := none
  maxDelay : Option ℚ := none
  jitter : Option Bool := none
  backoffMultiplier : Option ℚ := none
  retryableErrors : Option (List String) := none
deriving DecidableEq, Repr

/-- `Required<RetryConfig>`: the merged effective configuration returned
by `mergeOptions`. -/
structure RequiredRetryConfig where
  maxAttempts : ℕ
  baseDelay : ℚ
  maxDelay : ℚ
  jitter : Bool
  backoffMultiplier : ℚ
  retryableErrors : List String
deriving DecidableEq, Repr

/-- Calling `retry` with no `customOptions` argument. -/
def emptyOptions : RetryConfigOpt := {}

/-- `mergeOptions`: each field is the caller's override when supplied
(`??`), otherwise the instance's value. -/
def mergeOptions (props : RetryProps) (customOptions : RetryConfigOpt) :
    RequiredRetryConfig where
  maxAttempts := customOptions.maxAttempts.getD props.maxAttempts
  baseDelay := customOptions.baseDelay.getD props.baseDelay
  maxDelay := customOptions.maxDelay.getD props.maxDelay
  jitter := customOptions.jitter.getD props.jitter
  backoffMultiplier := customOptions.backoffMultiplier.getD props.backoffMultiplier
  retryableErrors := customOptions.retryableErrors.getD props.retryableErrors

/-- `static create(config)`: instance construction with the documented
defaults. -/
def create (config : RetryConfigOpt) : RetryProps where
  maxAttempts := config.maxAttempts.getD 3
  baseDelay := config.baseDelay.getD 100
  maxDelay := config.maxDelay.getD 5000
  jitter := config.jitter.getD true
  backoffMultiplier := config.backoffMultiplier.getD 2
  retryableErrors :=
    config.retryableErrors.getD ["ECONNRESET", "ETIMEDOUT", "ENOTFOUND", "EHOSTUNREACH"]

/-- JavaScript `haystack.includes(needle)` on character lists: does
`needle` occur contiguously inside `haystack`? -/
def strIncludes (needle : List Char) : List Char → Bool
  | [] => needle.isPrefixOf []
  | c :: rest => needle.isPrefixOf (c :: rest) || strIncludes needle rest

/-- The fixed `retryablePatterns` keyword list from `isRetryableError`. -/
def retryablePatterns : List String :=
  ["network", "timeout", "connection", "reset", "refused",
   "unreachable", "temporarily", "temporary", "rate limit", "5", "429", "502", "503", "504",
   "unavailable", "service"]

/-- `isRetryableError(error)`: a truthy `code` contained in the
instance's `retryableErrors` set, or any fixed keyword occurring in the
lowercased message.  (`if (code && set.has(code))`: the empty string is
falsy in JS, hence the `c != ""` guard.) -/
def isRetryableError (retryableErrors : List String) (error : TSError) : Bool :=
  let message := error.message.data.map Char.toLower
  let codeMatch :=
    match error.code with
    | some c => (c != "") && retryableErrors.contains c
    | none => false
  codeMatch || retryablePatterns.any (fun pattern => strIncludes pattern.data message)

/-- The local `delay` value of `calculateDelay` just before
`Math.max(0, Math.floor(delay))`: exponential backoff from the instance
props, clamped at `maxDelay`, with the jitter perturbation
`(random() - 0.5) * (delay * 0.1)` when `jitter` is set.  `r` is the
`Math.random()` draw. -/
def calculateDelayQ (props : RetryProps) (attempt : ℕ) (r : ℚ) : ℚ :=
  let delay := props.baseDelay * props.backoffMultiplier ^ (attempt - 1)
  let delay := min delay props.maxDelay
  if props.jitter then delay + (r - 1/2) * (delay * (1/10)) else delay

/-- `calculateDelay(attempt, config)`.  Note: exactly as in the source,
the merged `config` parameter is accepted but not read — the body uses
only the instance props. -/
def calculateDelay (props : RetryProps) (config : RequiredRetryConfig)
    (attempt : ℕ) (r : ℚ) : ℤ :=
  max 0 ⌊calculateDelayQ props attempt r⌋

/-- The statistics counters held in the state unit. -/
structure Stats where
  totalOperations : ℕ
  totalRetries : ℕ
  successfulOperations : ℕ
  failedOperations : ℕ
  averageAttempts : ℚ
deriving DecidableEq, Repr

/-- The `initialState` installed by `create`. -/
def initialStats : Stats :=
  { totalOperations := 0, totalRetries := 0, successfulOperations := 0
    failedOperations := 0, averageAttempts := 0 }

/-- The success branch of the loop: `successfulOperations += 1`,
`totalRetries += attempt - 1`. -/
def recordSuccess (s : Stats) (retries : ℕ) : Stats :=
  { s with successfulOperations := s.successfulOperations + 1
           totalRetries := s.totalRetries + retries }

/-- Both failure branches of the loop: `failedOperations += 1`,
`totalRetries += attempt - 1`. -/
def recordFailure (s : Stats) (retries : ℕ) : Stats :=
  { s with failedOperations := s.failedOperations + 1
           totalRetries := s.totalRetries + retries }

/-- Terminal result of one call to `retry`: the returned `RetryResult`
on success, or which of the three `throw new Error(...)` sites fired,
with the data its message carries. -/
inductive RetryOutcome (T : Type) where
  /-- Normal return: result value, `attempts`, and the errors list at
  return time. -/
  | success (result : T) (attempts : ℕ) (errors : List TSError)
  /-- `Operation failed after ${attempt} attempts. Last error: ... All
  errors: ...`. -/
  | exhausted (attempts : ℕ) (lastError : TSError) (errors : List TSError)
  /-- `Non-retryable error: ${err.message}` (attempt index and the
  errors list at throw time kept as observable context). -/
  | nonRetryable (error : TSError) (attempts : ℕ) (errors : List TSError)
  /-- `Unexpected retry loop completion` — reached only when the loop
  body never runs. -/
  | loopCompletion
deriving DecidableEq, Repr

/-- Everything observable about one `retry` call: its outcome, the
counters afterwards, the sequence of `sleep` durations, and how many
times the operation was invoked. -/
structure RunResult (T : Type) where
  outcome : RetryOutcome T
  stats : Stats
  delays : List ℤ
  calls : ℕ
deriving DecidableEq, Repr

/-- The `for (let attempt = 1; attempt <= config.maxAttempts; attempt++)`
loop.  `fuel` is the number of loop iterations still permitted
(`config.maxAttempts - attempt + 1` at entry); the checks inside mirror
the source order: success return, then the `attempt === maxAttempts`
exhaustion check, then the retryability check, then sleep and continue.
The operation is modelled as a function of the attempt number. -/
def retryGo {T : Type} (isRetry : TSError → Bool) (dly : ℕ → ℤ) (maxAttempts : ℕ)
    (op : ℕ → Except TSError T) :
    ℕ → ℕ → List TSError → List ℤ → ℕ → Stats → RunResult T
  | 0, _, _, delays, calls, s => ⟨.loopCompletion, s, delays, calls⟩
  | fuel + 1, attempt, errors, delays, calls, s =>
    match op attempt with
    | .ok v => ⟨.success v attempt errors, recordSuccess s (attempt - 1), delays, calls + 1⟩
    | .error e =>
      if attempt = maxAttempts then
        ⟨.exhausted attempt e (errors ++ [e]), recordFailure s (attempt - 1), delays, calls + 1⟩
      else if !(isRetry e) then
        ⟨.nonRetryable e attempt (errors ++ [e]), recordFailure s (attempt - 1), delays, calls + 1⟩
      else
        retryGo isRetry dly maxAttempts op fuel (attempt + 1) (errors ++ [e])
          (delays ++ [dly attempt]) (calls + 1) s

/-- `retry(operation, customOptions?)`: merge the per-call options,
increment `totalOperations` before the loop, then run the loop from
attempt 1.  `rand a` is the `Math.random()` draw used for the sleep
after attempt `a`. -/
def retry {T : Type} (props : RetryProps) (customOptions : RetryConfigOpt)
    (op : ℕ → Except TSError T) (rand : ℕ → ℚ) (s : Stats) : RunResult T :=
  let config := mergeOptions props customOptions
  let s1 := { s with totalOperations := s.totalOperations + 1 }
  retryGo (isRetryableError props.retryableErrors)
    (fun a => calculateDelay props config a (rand a))
    config.maxAttempts op config.maxAttempts 1 [] [] 0 s1

/-- The `RetryStats` record returned by this variant's `getStats`. -/
structure RetryStats where
  totalOperations : ℕ
  totalRetries : ℕ
  successfulOperations : ℕ
  failedOperations : ℕ
  averageAttempts : ℚ
  successRate : ℚ
  config : RequiredRetryConfig
deriving DecidableEq, Repr

/-- `getStats()` (variant with the `config` sub-object): counters read
straight from state, `averageAttempts` read from the stored (never
updated) state field, `successRate = (succ || 0) / (total || 1)`. -/
def getStats (props : RetryProps) (s : Stats) : RetryStats where
  totalOperations := s.totalOperations
  totalRetries := s.totalRetries
  successfulOperations := s.successfulOperations
  failedOperations := s.failedOperations
  averageAttempts := s.averageAttempts
  successRate :=
    (s.successfulOperations : ℚ) /
      (if s.totalOperations = 0 then 1 else (s.totalOperations : ℚ))
  config :=
    { maxAttempts := props.maxAttempts, baseDelay := props.baseDelay
      maxDelay := props.maxDelay, jitter := props.jitter
      backoffMultiplier := props.backoffMultiplier
      retryableErrors := props.retryableErrors }

end RetryUnit

namespace RetryUnitSrc

/-- The `configuration` sub-object of the other variant's snapshot. -/
structure Configuration where
  maxAttempts : ℕ
  baseDelay : ℚ
  maxDelay : ℚ
  jitter : Bool
  backoffMultiplier : ℚ
deriving DecidableEq, Repr

/-- The snapshot returned by the `src/retry.unit.ts` variant's
`getStats`. -/
structure StatsSnapshot where
  totalOperations : ℕ
  totalRetries : ℕ
  successfulOperations : ℕ
  failedOperations : ℕ
  successRate : ℚ
  averageAttempts : ℚ
  configuration : Configuration
deriving DecidableEq, Repr

/-- `getStats()` of the `src/retry.unit.ts` variant:
`averageAttempts = totalOperations > 0 ? (totalOperations + totalRetries) / totalOperations : 0`,
`successRate = totalOperations > 0 ? successfulOperations / totalOperations : 0`. -/
def getStats (props : RetryUnit.RetryProps) (s : RetryUnit.Stats) : StatsSnapshot where
  totalOperations := s.totalOperations
  totalRetries := s.totalRetries
  successfulOperations := s.successfulOperations
  failedOperations := s.failedOperations
  successRate :=
    if 0 < s.totalOperations then
      (s.successfulOperations : ℚ) / (s.totalOperations : ℚ)
    else 0
  averageAttempts :=
    if 0 < s.totalOperations then
      ((s.totalOperations : ℚ) + (s.totalRetries : ℚ)) / (s.totalOperations : ℚ)
    else 0
  configuration :=
    { maxAttempts := props.maxAttempts, baseDelay := props.baseDelay
      maxDelay := props.maxDelay, jitter := props.jitter
      backoffMultiplier := props.backoffMultiplier }

end RetryUnitSrc

namespace RetryUnit

/-- The demo policy of the spec's delay-sequence example, with jitter
disabled: `baseDelay=100, backoffMultiplier=2, maxDelay=5000`. -/
def propsNoJitter : RetryProps where
  maxAttempts := 3
  baseDelay := 100
  maxDelay := 5000
  jitter := false
  backoffMultiplier := 2
  retryableErrors := ["ECONNRESET", "ETIMEDOUT", "ENOTFOUND", "EHOSTUNREACH"]

/-- The non-retryable error of the spec's end-to-end example. -/
def authError : TSError := ⟨"Invalid authentication credentials", none⟩

/-- An instance with `maxAttempts = 1` and the other defaults. -/
def propsOne : RetryProps := create { maxAttempts := some 1 }

/-- A retryable-by-message error used as a concrete fixture. -/
def timeoutError : TSError := ⟨"timeout", none⟩

/-- `strIncludes` decides contiguous-substring occurrence. -/
lemma strIncludes_iff (needle hay : List Char) :
    strIncludes needle hay = true ↔ needle <:+: hay := by
  induction hay with
  | nil => simp [strIncludes]
  | cons c rest ih => simp [strIncludes, ih, List.infix_cons_iff]

/-- Claim C6: `isRetryableError(error)` returns true exactly when the
error exposes a (truthy) code belonging to the instance's
`retryableErrors` set, or the lowercased message contains one of the
fixed keywords `network, timeout, connection, reset, refused,
unreachable, temporarily, temporary, rate limit, 5, 429, 502, 503, 504,
unavailable, service`; otherwise the error is non-retryable. -/
theorem isRetryableError_characterization (es : List String) (e : TSError) :
    isRetryableError es e = true ↔
      (∃ c, e.code = some c ∧ c ≠ "" ∧ c ∈ es) ∨
      (∃ p ∈ retryablePatterns, p.data <:+: e.message.data.map Char.toLower) := by
  unfold isRetryableError
  cases hc : e.code with
  | none => simp [List.any_eq_true, strIncludes_iff]
  | some c =>
    simp [List.any_eq_true, strIncludes_iff, List.contains, List.elem_iff, bne_iff_ne]

/-- Claim C9: `getStats()` is a pure function of the live counters:
calling it twice with no intervening `retry` yields equal snapshots, and
every counter field of the snapshot equals the counter at call time
(never a stale cached value). -/
theorem getStats_snapshot_idempotent (props : RetryProps) (s : Stats) :
    getStats props s = getStats props s ∧
    (getStats props s).totalOperations = s.totalOperations ∧
    (getStats props s).totalRetries = s.totalRetries ∧
    (getStats props s).successfulOperations = s.successfulOperations ∧
    (getStats props s).failedOperations = s.failedOperations :=
  ⟨rfl, rfl, rfl, rfl, rfl⟩

/-- Claim C4: with jitter disabled, `calculateDelay(a, _)` equals
`min(baseDelay * backoffMultiplier^(a-1), maxDelay)` floored to a
non-negative integer, independently of the random draw; and on the demo
policy (`baseDelay=100, backoffMultiplier=2, maxDelay=5000`) the delays
slept before attempts 2, 3, 4 are 100, 200, 400. -/
theorem calculateDelay_noJitter_formula (props : RetryProps)
    (cfg : RequiredRetryConfig) (a : ℕ) (r r' : ℚ) (hj : props.jitter = false) :
    calculateDelay props cfg a r
        = max 0 ⌊min (props.baseDelay * props.backoffMultiplier ^ (a - 1)) props.maxDelay⌋ ∧
    calculateDelay props cfg a r = calculateDelay props cfg a r' ∧
    calculateDelay propsNoJitter (mergeOptions propsNoJitter emptyOptions) 1 0 = 100 ∧
    calculateDelay propsNoJitter (mergeOptions propsNoJitter emptyOptions) 2 0 = 200 ∧
    calculateDelay propsNoJitter (mergeOptions propsNoJitter emptyOptions) 3 0 = 400 := by
  refine ⟨?_, ?_, ?_, ?_, ?_⟩
  · simp [calculateDelay, calculateDelayQ, hj]
  · simp [calculateDelay, calculateDelayQ, hj]
  · simp [calculateDelay, calculateDelayQ, propsNoJitter]; norm_num
  · simp [calculateDelay, calculateDelayQ, propsNoJitter]; norm_num
  · simp [calculateDelay, calculateDelayQ, propsNoJitter]; norm_num

/-- Witness for C4 at the demo policy, attempt 1, draws 0 and 1. -/
theorem calculateDelay_noJitter_formula_witness :
    propsNoJitter.jitter = false ∧
    calculateDelay propsNoJitter (mergeOptions propsNoJitter emptyOptions) 1 0
      = max 0 ⌊min (propsNoJitter.baseDelay * propsNoJitter.backoffMultiplier ^ (1 - 1))
          propsNoJitter.maxDelay⌋ ∧
    calculateDelay propsNoJitter (mergeOptions propsNoJitter emptyOptions) 2 0 = 200 :=
  ⟨rfl,
   (calculateDelay_noJitter_formula propsNoJitter (mergeOptions propsNoJitter emptyOptions)
      1 0 1 rfl).1,
   (calculateDelay_noJitter_formula propsNoJitter (mergeOptions propsNoJitter emptyOptions)
      1 0 1 rfl).2.2.2.1⟩

/-- Claim C5: with jitter enabled and a random draw in `[0,1)`, the
jittered value (the source's local `delay` just before flooring) stays
within ±5% of the un-jittered clamped value
`min(baseDelay * backoffMultiplier^(attempt-1), maxDelay)`, and the
returned delay is never negative (floored at 0). -/
theorem calculateDelay_jitter_bounds (props : RetryProps)
    (cfg : RequiredRetryConfig) (a : ℕ) (r : ℚ)
    (hb : 0 ≤ props.baseDelay) (hm : 0 ≤ props.maxDelay)
    (hj : props.jitter = true) (hr0 : 0 ≤ r) (hr1 : r < 1) :
    |calculateDelayQ props a r
        - min (props.baseDelay * props.backoffMultiplier ^ (a - 1)) props.maxDelay|
      ≤ |min (props.baseDelay * props.backoffMultiplier ^ (a - 1)) props.maxDelay| * (1/20) ∧
    0 ≤ calculateDelay props cfg a r := by
  constructor
  · have h1 : calculateDelayQ props a r
        = min (props.baseDelay * props.backoffMultiplier ^ (a - 1)) props.maxDelay
          + (r - 1/2)
            * (min (props.baseDelay * props.backoffMultiplier ^ (a - 1)) props.maxDelay
                * (1/10)) := by
      simp [calculateDelayQ, hj]
    rw [h1, add_sub_cancel_left, abs_mul, abs_mul]
    have h2 : |r - 1/2| ≤ 1/2 := by
      rw [abs_le]; constructor <;> linarith
    have h3 : |(1/20 : ℚ)| = 1/20 := by norm_num
    calc |r - 1/2|
          * (|min (props.baseDelay * props.backoffMultiplier ^ (a - 1)) props.maxDelay|
              * |(1/10 : ℚ)|)
        ≤ (1/2)
          * (|min (props.baseDelay * props.backoffMultiplier ^ (a - 1)) props.maxDelay|
              * |(1/10 : ℚ)|) := by
          apply mul_le_mul_of_nonneg_right h2 (by positivity)
      _ = |min (props.baseDelay * props.backoffMultiplier ^ (a - 1)) props.maxDelay|
            * (1/20) := by
          rw [show |(1/10 : ℚ)| = 1/10 by norm_num]; ring
  · exact le_max_left 0 _

/-- Witness for C5 at the default policy (jitter on), attempt 1, draw 0. -/
theorem calculateDelay_jitter_bounds_witness :
    0 ≤ (create emptyOptions).baseDelay ∧ 0 ≤ (create emptyOptions).maxDelay ∧
    (create emptyOptions).jitter = true ∧ (0:ℚ) ≤ 0 ∧ (0:ℚ) < 1 ∧
    0 ≤ calculateDelay (create emptyOptions)
          (mergeOptions (create emptyOptions) emptyOptions) 1 0 :=
  ⟨by decide, by decide, rfl, le_refl 0, by norm_num,
   (calculateDelay_jitter_bounds (create emptyOptions)
      (mergeOptions (create emptyOptions) emptyOptions) 1 0
      (by decide) (by decide) rfl (le_refl 0) (by norm_num)).2⟩

end RetryUnit

namespace RetryUnitSrc

/-- Claim C7: the snapshot of `getStats` (the `src/retry.unit.ts`
variant, lines 237-259) has `successRate = successfulOperations /
totalOperations` and `averageAttempts = (totalOperations + totalRetries)
/ totalOperations`, and both derived fields are 0 (not NaN or infinity)
when `totalOperations = 0`. -/
theorem getStats_derived_fields (props : RetryUnit.RetryProps) (s : RetryUnit.Stats) :
    (getStats props s).successRate
        = (s.successfulOperations : ℚ) / (s.totalOperations : ℚ) ∧
    (getStats props s).averageAttempts
        = ((s.totalOperations : ℚ) + (s.totalRetries : ℚ)) / (s.totalOperations : ℚ) ∧
    (s.totalOperations = 0 →
      (getStats props s).successRate = 0 ∧ (getStats props s).averageAttempts = 0) := by
  by_cases h : s.totalOperations = 0
  · refine ⟨?_, ?_, fun _ => ⟨?_, ?_⟩⟩ <;> simp [getStats, h]
  · have hpos : 0 < s.totalOperations := Nat.pos_of_ne_zero h
    refine ⟨?_, ?_, fun h0 => absurd h0 h⟩ <;> simp [getStats, hpos]

/-- Witness for C7 at the freshly created instance (zero operations). -/
theorem getStats_derived_fields_witness :
    (getStats (RetryUnit.create RetryUnit.emptyOptions) RetryUnit.initialStats).successRate = 0 ∧
    (getStats (RetryUnit.create RetryUnit.emptyOptions) RetryUnit.initialStats).averageAttempts
      = 0 :=
  (getStats_derived_fields (RetryUnit.create RetryUnit.emptyOptions)
    RetryUnit.initialStats).2.2 rfl

end RetryUnitSrc

namespace RetryUnit

/-- `authError` matches no retryable code (it has none) and no keyword of
the fixed pattern list, for any configured `retryableErrors` set. -/
lemma authError_not_retryable (es : List String) :
    isRetryableError es authError = false := by rfl

/-- Running the loop when every attempt fails with a retryable error:
with `f + 1` iterations of budget left and `attempt + f = m`, the loop
consumes the whole budget and exits through the exhaustion branch at
attempt `m`, collecting every error and sleeping after each non-final
attempt. -/
lemma retryGo_allFail {T : Type} (isR : TSError → Bool) (dly : ℕ → ℤ) (m : ℕ)
    (errAt : ℕ → TSError) (hr : ∀ a, isR (errAt a) = true) :
    ∀ (f attempt : ℕ), attempt + f = m →
    ∀ (errors : List TSError) (delays : List ℤ) (calls : ℕ) (s : Stats),
    retryGo (T := T) isR dly m (fun a => Except.error (errAt a)) (f + 1) attempt
        errors delays calls s
      = ⟨.exhausted m (errAt m) (errors ++ (List.range' attempt (f + 1)).map errAt),
         recordFailure s (m - 1),
         delays ++ (List.range' attempt f).map dly,
         calls + (f + 1)⟩ := by
  intro f
  induction f with
  | zero =>
    intro attempt h errors delays calls s
    have ha : attempt = m := by omega
    subst ha
    simp [retryGo, List.range']
  | succ f ih =>
    intro attempt h errors delays calls s
    have hne : attempt ≠ m := by omega
    have hstep :
        retryGo (T := T) isR dly m (fun a => Except.error (errAt a)) (f + 1 + 1) attempt
            errors delays calls s
          = retryGo (T := T) isR dly m (fun a => Except.error (errAt a)) (f + 1)
              (attempt + 1) (errors ++ [errAt attempt]) (delays ++ [dly attempt])
              (calls + 1) s := by
      simp [retryGo, hne, hr attempt]
    rw [hstep, ih (attempt + 1) (by omega)]
    simp [List.range'_succ, List.append_assoc]
    omega

/-- Claim C1: for `maxAttempts = n ≥ 1` and an operation that always
fails with a retryable error, `retry` invokes the operation exactly `n`
times, terminates through the exhaustion branch carrying the full
ordered list of all `n` errors and the last error, increments
`failedOperations` by 1, adds `n - 1` to `totalRetries`, and increments
`totalOperations` by 1. -/
theorem retry_allRetryableFailures_exhausts {T : Type} (props : RetryProps)
    (errAt : ℕ → TSError) (rand : ℕ → ℚ) (s : Stats)
    (h1 : 1 ≤ props.maxAttempts)
    (hr : ∀ a, isRetryableError props.retryableErrors (errAt a) = true) :
    retry (T := T) props emptyOptions (fun a => Except.error (errAt a)) rand s
      = ⟨.exhausted props.maxAttempts (errAt props.maxAttempts)
            ((List.range' 1 props.maxAttempts).map errAt),
         { s with totalOperations := s.totalOperations + 1,
                  failedOperations := s.failedOperations + 1,
                  totalRetries := s.totalRetries + (props.maxAttempts - 1) },
         (List.range' 1 (props.maxAttempts - 1)).map
           (fun a => calculateDelay props (mergeOptions props emptyOptions) a (rand a)),
         props.maxAttempts⟩
      ∧ ((List.range' 1 props.maxAttempts).map errAt).length = props.maxAttempts := by
  refine ⟨?_, by simp⟩
  obtain ⟨f, hf⟩ : ∃ f, props.maxAttempts = f + 1 := ⟨props.maxAttempts - 1, by omega⟩
  have hkey := retryGo_allFail (T := T) (isRetryableError props.retryableErrors)
    (fun a => calculateDelay props (mergeOptions props emptyOptions) a (rand a))
    props.maxAttempts errAt hr f 1 (by omega) [] [] 0
    { s with totalOperations := s.totalOperations + 1 }
  show retryGo (T := T) (isRetryableError props.retryableErrors)
      (fun a => calculateDelay props (mergeOptions props emptyOptions) a (rand a))
      props.maxAttempts (fun a => Except.error (errAt a)) props.maxAttempts 1 [] [] 0
      { s with totalOperations := s.totalOperations + 1 } = _
  rw [hf] at hkey ⊢
  rw [hkey]
  simp [recordFailure]

/-- Witness for C1: the default instance (`maxAttempts = 3`) against an
operation that always fails with a "timeout" error. -/
theorem retry_allRetryableFailures_exhausts_witness :
    retry (T := Unit) (create emptyOptions) emptyOptions
        (fun _ => Except.error timeoutError) (fun _ => 0) initialStats
      = ⟨.exhausted (create emptyOptions).maxAttempts timeoutError
            ((List.range' 1 (create emptyOptions).maxAttempts).map fun _ => timeoutError),
         { initialStats with
             totalOperations := initialStats.totalOperations + 1,
             failedOperations := initialStats.failedOperations + 1,
             totalRetries := initialStats.totalRetries + ((create emptyOptions).maxAttempts - 1) },
         (List.range' 1 ((create emptyOptions).maxAttempts - 1)).map
           (fun a => calculateDelay (create emptyOptions)
               (mergeOptions (create emptyOptions) emptyOptions) a 0),
         (create emptyOptions).maxAttempts⟩
      ∧ ((List.range' 1 (create emptyOptions).maxAttempts).map fun _ => timeoutError).length
          = (create emptyOptions).maxAttempts := by
  refine retry_allRetryableFailures_exhausts (T := Unit) (create emptyOptions)
    (fun _ => timeoutError) (fun _ => 0) initialStats (by decide) ?_
  intro a
  show isRetryableError (create emptyOptions).retryableErrors timeoutError = true
  decide

/-- The loop never touches the counters until its terminal outcome: the
final counters are the input counters transformed by exactly one
`recordSuccess`/`recordFailure` at the attempt the loop ended on (or
untouched when the loop body never ran). -/
lemma retryGo_stats {T : Type} (isR : TSError → Bool) (dly : ℕ → ℤ) (m : ℕ)
    (op : ℕ → Except TSError T) :
    ∀ (fuel attempt : ℕ) (errors : List TSError) (delays : List ℤ) (calls : ℕ) (s : Stats),
    (retryGo (T := T) isR dly m op fuel attempt errors delays calls s).stats
      = match (retryGo (T := T) isR dly m op fuel attempt errors delays calls s).outcome with
        | .success _ a _ => recordSuccess s (a - 1)
        | .exhausted a _ _ => recordFailure s (a - 1)
        | .nonRetryable _ a _ => recordFailure s (a - 1)
        | .loopCompletion => s := by
  intro fuel
  induction fuel with
  | zero => intro attempt errors delays calls s; rfl
  | succ f ih =>
    intro attempt errors delays calls s
    simp only [retryGo]
    cases hop : op attempt with
    | ok v => rfl
    | error e =>
      by_cases h1 : attempt = m
      · simp [h1]
      · simp only [if_neg h1]
        by_cases h2 : isR e
        · simp only [h2, Bool.not_true, Bool.false_eq_true, if_false]
          exact ih (attempt + 1) (errors ++ [e]) (delays ++ [dly attempt]) (calls + 1) s
        · simp [h2]

/-- Claim C8: every `retry` call increments `totalOperations` by exactly
1 (before the loop, independent of outcome), and the remaining counters
change exactly once, at the terminal outcome — the final counters are
the entry counters with `totalOperations + 1` transformed by a single
`recordSuccess`/`recordFailure` at the terminal attempt, never by
updates on intermediate retryable failures. -/
theorem retry_stats_updated_once {T : Type} (props : RetryProps)
    (custom : RetryConfigOpt) (op : ℕ → Except TSError T) (rand : ℕ → ℚ) (s : Stats) :
    (retry (T := T) props custom op rand s).stats.totalOperations = s.totalOperations + 1 ∧
    (retry (T := T) props custom op rand s).stats
      = match (retry (T := T) props custom op rand s).outcome with
        | .success _ a _ =>
            recordSuccess { s with totalOperations := s.totalOperations + 1 } (a - 1)
        | .exhausted a _ _ =>
            recordFailure { s with totalOperations := s.totalOperations + 1 } (a - 1)
        | .nonRetryable _ a _ =>
            recordFailure { s with totalOperations := s.totalOperations + 1 } (a - 1)
        | .loopCompletion => { s with totalOperations := s.totalOperations + 1 } := by
  have h := retryGo_stats (T := T) (isRetryableError props.retryableErrors)
    (fun a => calculateDelay props (mergeOptions props custom) a (rand a))
    (mergeOptions props custom).maxAttempts op (mergeOptions props custom).maxAttempts
    1 [] [] 0 { s with totalOperations := s.totalOperations + 1 }
  refine ⟨?_, h⟩
  rw [show (retry (T := T) props custom op rand s).stats
      = match (retry (T := T) props custom op rand s).outcome with
        | .success _ a _ =>
            recordSuccess { s with totalOperations := s.totalOperations + 1 } (a - 1)
        | .exhausted a _ _ =>
            recordFailure { s with totalOperations := s.totalOperations + 1 } (a - 1)
        | .nonRetryable _ a _ =>
            recordFailure { s with totalOperations := s.totalOperations + 1 } (a - 1)
        | .loopCompletion => { s with totalOperations := s.totalOperations + 1 }
    from h]
  cases (retry (T := T) props custom op rand s).outcome <;>
    simp [recordSuccess, recordFailure]

end RetryUnit

namespace RetryUnit

/-- Counterexample for C3: with `maxAttempts = 1` the single failing
attempt with the non-retryable message "Invalid authentication
credentials" terminates through the exhaustion branch ("Operation failed
after 1 attempts"), not through the non-retryable branch — the
`attempt === maxAttempts` check fires before the retryability check. -/
theorem retry_auth_maxAttemptsOne_counterexample :
    (retry (T := Unit) propsOne emptyOptions (fun _ => Except.error authError)
        (fun _ => 0) initialStats).outcome
      = RetryOutcome.exhausted 1 authError [authError] ∧
    (retry (T := Unit) propsOne emptyOptions (fun _ => Except.error authError)
        (fun _ => 0) initialStats).outcome
      ≠ RetryOutcome.nonRetryable authError 1 [authError] :=
  ⟨by decide, by decide⟩

/-- Claim C3 (amended): an operation whose single failure has message
"Invalid authentication credentials" — matching no retryable code and no
keyword — is invoked exactly once and no sleep occurs, for every
`maxAttempts ≥ 1`; the terminal error is the non-retryable one whenever
`maxAttempts ≥ 2`, while for `maxAttempts = 1` the single attempt
terminates through the exhaustion branch instead. -/
theorem retry_auth_failsFast (props : RetryProps) (rand : ℕ → ℚ) (s : Stats)
    (h1 : 1 ≤ props.maxAttempts) :
    (retry (T := Unit) props emptyOptions (fun _ => Except.error authError) rand s).calls
        = 1 ∧
    (retry (T := Unit) props emptyOptions (fun _ => Except.error authError) rand s).delays
        = [] ∧
    (retry (T := Unit) props emptyOptions (fun _ => Except.error authError) rand s).stats
        = { s with totalOperations := s.totalOperations + 1,
                   failedOperations := s.failedOperations + 1 } ∧
    (2 ≤ props.maxAttempts →
      (retry (T := Unit) props emptyOptions (fun _ => Except.error authError) rand s).outcome
        = RetryOutcome.nonRetryable authError 1 [authError]) ∧
    (props.maxAttempts = 1 →
      (retry (T := Unit) props emptyOptions (fun _ => Except.error authError) rand s).outcome
        = RetryOutcome.exhausted 1 authError [authError]) := by
  by_cases hone : props.maxAttempts = 1
  · have hrun :
        retry (T := Unit) props emptyOptions (fun _ => Except.error authError) rand s
          = ⟨.exhausted 1 authError [authError],
             { s with totalOperations := s.totalOperations + 1,
                      failedOperations := s.failedOperations + 1 },
             [], 1⟩ := by
      show retryGo (T := Unit) (isRetryableError props.retryableErrors)
          (fun a => calculateDelay props (mergeOptions props emptyOptions) a (rand a))
          props.maxAttempts (fun _ => Except.error authError) props.maxAttempts 1 [] [] 0
          { s with totalOperations := s.totalOperations + 1 } = _
      rw [hone]
      simp [retryGo, recordFailure]
    rw [hrun]
    refine ⟨rfl, rfl, rfl, fun h2 => by omega, fun _ => rfl⟩
  · have h2 : 2 ≤ props.maxAttempts := by omega
    obtain ⟨g, hg⟩ : ∃ g, props.maxAttempts = g + 2 := ⟨props.maxAttempts - 2, by omega⟩
    have hrun :
        retry (T := Unit) props emptyOptions (fun _ => Except.error authError) rand s
          = ⟨.nonRetryable authError 1 [authError],
             { s with totalOperations := s.totalOperations + 1,
                      failedOperations := s.failedOperations + 1 },
             [], 1⟩ := by
      show retryGo (T := Unit) (isRetryableError props.retryableErrors)
          (fun a => calculateDelay props (mergeOptions props emptyOptions) a (rand a))
          props.maxAttempts (fun _ => Except.error authError) props.maxAttempts 1 [] [] 0
          { s with totalOperations := s.totalOperations + 1 } = _
      rw [hg]
      have hne : (1 : ℕ) ≠ g + 2 := by omega
      simp [retryGo, hne, authError_not_retryable, recordFailure]
    rw [hrun]
    exact ⟨rfl, rfl, rfl, fun _ => rfl, fun hcon => by omega⟩

/-- Witness for C3 (amended) at the default instance (`maxAttempts = 3`). -/
theorem retry_auth_failsFast_witness :
    (retry (T := Unit) (create emptyOptions) emptyOptions
        (fun _ => Except.error authError) (fun _ => 0) initialStats).calls = 1 ∧
    (retry (T := Unit) (create emptyOptions) emptyOptions
        (fun _ => Except.error authError) (fun _ => 0) initialStats).delays = [] ∧
    (retry (T := Unit) (create emptyOptions) emptyOptions
        (fun _ => Except.error authError) (fun _ => 0) initialStats).stats
      = { initialStats with
            totalOperations := initialStats.totalOperations + 1,
            failedOperations := initialStats.failedOperations + 1 } ∧
    (2 ≤ (create emptyOptions).maxAttempts →
      (retry (T := Unit) (create emptyOptions) emptyOptions
          (fun _ => Except.error authError) (fun _ => 0) initialStats).outcome
        = RetryOutcome.nonRetryable authError 1 [authError]) ∧
    ((create emptyOptions).maxAttempts = 1 →
      (retry (T := Unit) (create emptyOptions) emptyOptions
          (fun _ => Except.error authError) (fun _ => 0) initialStats).outcome
        = RetryOutcome.exhausted 1 authError [authError]) :=
  retry_auth_failsFast (create emptyOptions) (fun _ => 0) initialStats (by decide)

/-- Claim C2 (code bug): `mergeOptions` computes the merged per-call
policy, but the loop honours only its `maxAttempts`: `calculateDelay`
ignores its merged-config parameter and reads the instance props (an
overridden `baseDelay = 999` still yields the instance delay 100), and
the retryability classification uses the instance's `retryableErrors`
set (overriding it with `[]` does not stop the ECONNRESET-coded error
from being retried to exhaustion: 3 invocations instead of 1). -/
theorem mergeOptions_overrides_ignored_bug :
    (mergeOptions propsNoJitter { baseDelay := some 999 }).baseDelay = 999 ∧
    calculateDelay propsNoJitter (mergeOptions propsNoJitter { baseDelay := some 999 }) 1 0
      = 100 ∧
    (mergeOptions propsNoJitter { retryableErrors := some [] }).retryableErrors = [] ∧
    (retry (T := Unit) propsNoJitter { retryableErrors := some [] }
        (fun _ => Except.error ⟨"boom", some "ECONNRESET"⟩)
        (fun _ => 0) initialStats).calls = 3 := by
  refine ⟨rfl, ?_, rfl, by decide⟩
  simp [calculateDelay, calculateDelayQ, propsNoJitter]
  norm_num

/-- Claim C10: when the effective `maxAttempts` is 0 the loop body never
runs: the operation is invoked zero times, `totalOperations` is still
incremented, the call falls through to the "Unexpected retry loop
completion" fallback, and neither `successfulOperations` nor
`failedOperations` changes — so starting from fresh counters,
`totalOperations = successfulOperations + failedOperations` is broken.
No `maxAttempts ≥ 1` validation exists anywhere on the path. -/
theorem retry_zeroMaxAttempts_fallback {T : Type} (props : RetryProps)
    (custom : RetryConfigOpt) (op : ℕ → Except TSError T) (rand : ℕ → ℚ) (s : Stats)
    (h : (mergeOptions props custom).maxAttempts = 0) :
    retry (T := T) props custom op rand s
      = ⟨.loopCompletion, { s with totalOperations := s.totalOperations + 1 }, [], 0⟩ ∧
    (retry (T := T) props custom op rand initialStats).stats.totalOperations
      ≠ (retry (T := T) props custom op rand initialStats).stats.successfulOperations
        + (retry (T := T) props custom op rand initialStats).stats.failedOperations := by
  have key : ∀ s' : Stats,
      retry (T := T) props custom op rand s'
        = ⟨.loopCompletion, { s' with totalOperations := s'.totalOperations + 1 }, [], 0⟩ := by
    intro s'
    show retryGo (T := T) (isRetryableError props.retryableErrors)
        (fun a => calculateDelay props (mergeOptions props custom) a (rand a))
        (mergeOptions props custom).maxAttempts op (mergeOptions props custom).maxAttempts
        1 [] [] 0 { s' with totalOperations := s'.totalOperations + 1 } = _
    rw [h]
    rfl
  refine ⟨key s, ?_⟩
  rw [key initialStats]
  simp [initialStats]

/-- Witness for C10: a per-call override `maxAttempts = 0` on the
default instance. -/
theorem retry_zeroMaxAttempts_fallback_witness :
    (mergeOptions (create emptyOptions) { maxAttempts := some 0 }).maxAttempts = 0 ∧
    retry (T := Unit) (create emptyOptions) { maxAttempts := some 0 }
        (fun _ => Except.ok ()) (fun _ => 0) initialStats
      = ⟨.loopCompletion,
         { initialStats with totalOperations := initialStats.totalOperations + 1 }, [], 0⟩ :=
  ⟨rfl,
   (retry_zeroMaxAttempts_fallback (T := Unit) (create emptyOptions)
      { maxAttempts := some 0 } (fun _ => Except.ok ()) (fun _ => 0) initialStats rfl).1⟩

end RetryUnit
